import Mathlib

/-!
Shallow embedding of the xlunar-ai-avatar animation engine.

JavaScript `number` arithmetic is idealised as real arithmetic (`ℝ`); the
spec's exact-value properties (period, symmetry, clamping) only make sense
in that reading.  Fallible code paths (reading a property of `undefined`,
which throws a `TypeError` in JavaScript) are embedded as `Option`, with
`none` standing for a thrown exception.

Sources embedded:
- `src/lib/avatar/animation/easing.ts` (easing curves, `smoothDamp`,
  oscillators, `breathingCurve`)
- `src/lib/avatar/animation/PoseController.ts` (the controller state
  machine: pose transitions, gesture keyframe playback, procedural body
  motion, finger poses, per-tick smoothing)
- the speech-mouth animation layer (`SpeechMouthLayer`)
- `src/lib/avatar/config/poses.ts` (`degToRad`, data shapes)
-/

open scoped Classical

noncomputable section

/-- A 3-component vector of JS numbers (used for Euler rotations, both in
degrees and in radians, matching the `[number, number, number]` triples and
`THREE.Euler`-style `{x, y, z}` objects of the source). -/
structure Vec3 where
  x : ℝ
  y : ℝ
  z : ℝ

/-- Embeds `degToRad` from `config/poses.ts`: `degrees * (Math.PI / 180)`. -/
def degToRad (degrees : ℝ) : ℝ := degrees * (Real.pi / 180)

/-- Embeds `easeInSine` from `easing.ts`: `1 - Math.cos((t * Math.PI) / 2)`. -/
def easeInSine (t : ℝ) : ℝ := 1 - Real.cos (t * Real.pi / 2)

/-- Embeds `easeOutSine` from `easing.ts`: `Math.sin((t * Math.PI) / 2)`. -/
def easeOutSine (t : ℝ) : ℝ := Real.sin (t * Real.pi / 2)

/-- Embeds `easeInOutSine` from `easing.ts`: `-(Math.cos(Math.PI * t) - 1) / 2`. -/
def easeInOutSine (t : ℝ) : ℝ := -(Real.cos (Real.pi * t) - 1) / 2

/-- Embeds `easeInQuad` from `easing.ts`: `t * t`. -/
def easeInQuad (t : ℝ) : ℝ := t * t

/-- Embeds `easeOutQuad` from `easing.ts`: `1 - (1 - t) * (1 - t)`. -/
def easeOutQuad (t : ℝ) : ℝ := 1 - (1 - t) * (1 - t)

/-- Embeds `easeInOutCubic` from `easing.ts`:
`t < 0.5 ? 4 * t * t * t : 1 - Math.pow(-2 * t + 2, 3) / 2`. -/
def easeInOutCubic (t : ℝ) : ℝ :=
  if t < 0.5 then 4 * t * t * t else 1 - (-2 * t + 2) ^ 3 / 2

/-- JS truncation toward zero, as performed by the `%` remainder operator. -/
def jsTrunc (x : ℝ) : ℝ := if 0 ≤ x then (⌊x⌋ : ℤ) else (⌈x⌉ : ℤ)

/-- The JS `%` remainder operator on numbers: `a - b * trunc(a / b)`
(remainder has the sign of the dividend). -/
def jsMod (a b : ℝ) : ℝ := a - b * jsTrunc (a / b)

/-- Embeds `breathingCurve` from `easing.ts`: phase `= (t * bpm / 60) % 1`;
inhale branch (`phase < 0.4`) returns `easeOutSine(phase / 0.4)`, exhale
branch returns `1 - easeInSine((phase - 0.4) / 0.6)`. -/
def breathingCurve (time breathsPerMinute : ℝ) : ℝ :=
  let cyclesPerSecond := breathsPerMinute / 60
  let phase := jsMod (time * cyclesPerSecond) 1
  if phase < 0.4 then
    easeOutSine (phase / 0.4)
  else
    1 - easeInSine ((phase - 0.4) / 0.6)

/-- Embeds `organicOscillation` from `easing.ts`: primary sine plus two weak
harmonics, normalised by 1.35. -/
def organicOscillation (time baseFrequency : ℝ) : ℝ :=
  let primary := Real.sin (time * baseFrequency * Real.pi * 2)
  let harmonic1 := Real.sin (time * baseFrequency * 1.5 * Real.pi * 2) * 0.2
  let harmonic2 := Real.sin (time * baseFrequency * 0.7 * Real.pi * 2) * 0.15
  (primary + harmonic1 + harmonic2) / 1.35

/-- Embeds `headMicroMovement` from `easing.ts`. -/
def headMicroMovement (time : ℝ) : ℝ × ℝ × ℝ :=
  (organicOscillation time 0.1 * 0.5 + organicOscillation time 0.17 * 0.3,
   organicOscillation time 0.08 * 0.3 + organicOscillation time 0.13 * 0.2,
   organicOscillation time 0.05 * 0.15)

/-- Embeds `smoothDamp` from `easing.ts`.  The source mutates `currentVelocityRef`
and returns the new position; the embedding returns the
`(output, newVelocity)` pair.  The optional `maxSpeed` argument defaults to
`Infinity` in the source and is never passed by any caller in this
repository; `none` models `Infinity`, under which the speed clamp
`Math.max(-maxChange, Math.min(maxChange, change))` is the identity
(`maxChange = Infinity * smoothTime = Infinity` since `smoothTime` was
clamped to at least `0.0001`). -/
def smoothDamp (current target velocity0 smoothTime0 deltaTime : ℝ)
    (maxSpeed : Option ℝ) : ℝ × ℝ :=
  let smoothTime := max 0.0001 smoothTime0
  let omega := 2 / smoothTime
  let x := omega * deltaTime
  let e := 1 / (1 + x + 0.48 * x ^ 2 + 0.235 * x ^ 3)
  let change0 := current - target
  let originalTo := target
  let change :=
    match maxSpeed with
    | none => change0
    | some ms => max (-(ms * smoothTime)) (min (ms * smoothTime) change0)
  let target1 := current - change
  let temp := (velocity0 + omega * change) * deltaTime
  let velocity1 := (velocity0 - omega * temp) * e
  let output := target1 + (change + temp) * e
  -- `originalTo - current > 0 === output > originalTo` (overshoot test)
  if (0 < originalTo - current ↔ originalTo < output) then
    (originalTo, (originalTo - originalTo) / deltaTime)
  else
    (output, velocity1)

/-- The pre-clamp `output` computed inside `smoothDamp` when
`maxSpeed = Infinity` (used only to state the overshoot-clamp trigger
condition of the source's sign-change test). -/
def smoothDampRawOutput (current target velocity0 smoothTime0 deltaTime : ℝ) : ℝ :=
  let smoothTime := max 0.0001 smoothTime0
  let omega := 2 / smoothTime
  let x := omega * deltaTime
  let e := 1 / (1 + x + 0.48 * x ^ 2 + 0.235 * x ^ 3)
  let change := current - target
  let temp := (velocity0 + omega * change) * deltaTime
  (current - change) + (change + temp) * e

theorem smoothDamp_none_eq (current target velocity0 smoothTime0 deltaTime : ℝ) :
    smoothDamp current target velocity0 smoothTime0 deltaTime none =
      if (0 < target - current ↔
          target < smoothDampRawOutput current target velocity0 smoothTime0 deltaTime) then
        (target, (target - target) / deltaTime)
      else
        (smoothDampRawOutput current target velocity0 smoothTime0 deltaTime,
         (velocity0 - 2 / max 0.0001 smoothTime0 *
            ((velocity0 + 2 / max 0.0001 smoothTime0 * (current - target)) * deltaTime)) *
           (1 / (1 + 2 / max 0.0001 smoothTime0 * deltaTime +
             0.48 * (2 / max 0.0001 smoothTime0 * deltaTime) ^ 2 +
             0.235 * (2 / max 0.0001 smoothTime0 * deltaTime) ^ 3))) := by
  simp only [smoothDamp, smoothDampRawOutput]

/-- Claim C4: for `smoothTime > 0`, `deltaTime > 0` and `maxSpeed = Infinity`,
a single `smoothDamp` step never lands on the far side of the (pre-clamp)
target: from below the output is `≤ target`, from above it is `≥ target`;
and when the overshoot clamp triggers (the source's sign-change test
against the pre-clamp target), the output is exactly `target` and the
stored velocity is recomputed as `(output - target) / deltaTime`. -/
theorem smoothDamp_no_overshoot (c t v st dt : ℝ) (hst : 0 < st) (hdt : 0 < dt) :
    ((c < t → (smoothDamp c t v st dt none).1 ≤ t)
      ∧ (t < c → t ≤ (smoothDamp c t v st dt none).1))
    ∧ ((0 < t - c ↔ t < smoothDampRawOutput c t v st dt) →
        smoothDamp c t v st dt none = (t, (t - t) / dt)) := by
  rw [smoothDamp_none_eq]
  by_cases h : (0 < t - c ↔ t < smoothDampRawOutput c t v st dt)
  · rw [if_pos h]
    exact ⟨⟨fun _ => le_refl t, fun _ => le_refl t⟩, fun _ => rfl⟩
  · rw [if_neg h]
    refine ⟨⟨fun hc => ?_, fun hc => ?_⟩, fun hiff => absurd hiff h⟩
    · by_contra hgt
      push_neg at hgt
      exact h ⟨fun _ => hgt, fun _ => by linarith⟩
    · by_contra hgt
      push_neg at hgt
      exact h (iff_of_false (by linarith) (by linarith))

theorem smoothDamp_no_overshoot_witness :
    (0:ℝ) < 1 ∧ ((0:ℝ) < 1 → (smoothDamp 0 1 0 1 1 none).1 ≤ 1) :=
  ⟨by norm_num,
   fun h => (smoothDamp_no_overshoot 0 1 0 1 1 (by norm_num) (by norm_num)).1.1 h⟩

theorem jsMod_one_of_nonneg (x : ℝ) (hx : 0 ≤ x) : jsMod x 1 = Int.fract x := by
  simp only [jsMod, jsTrunc, div_one, if_pos hx, one_mul, Int.fract]

/-- Claim C6: for `bpm > 0`, `breathingCurve (· , bpm)` repeats with period
`60 / bpm` on nonnegative times, is exactly `0` at `t = 0`, and is exactly
`1` at the phase-0.4 boundary `t = 0.4 * (60 / bpm)`. -/
theorem breathingCurve_period (t bpm : ℝ) (hbpm : 0 < bpm) (ht : 0 ≤ t) :
    breathingCurve (t + 60 / bpm) bpm = breathingCurve t bpm
    ∧ breathingCurve 0 bpm = 0
    ∧ breathingCurve (0.4 * (60 / bpm)) bpm = 1 := by
  have hb : (bpm:ℝ) ≠ 0 := ne_of_gt hbpm
  refine ⟨?_, ?_, ?_⟩
  · have h1 : (t + 60 / bpm) * (bpm / 60) = t * (bpm / 60) + 1 := by
      field_simp
    have hx : 0 ≤ t * (bpm / 60) := by positivity
    have hphase : jsMod ((t + 60 / bpm) * (bpm / 60)) 1 = jsMod (t * (bpm / 60)) 1 := by
      rw [h1, jsMod_one_of_nonneg _ (by linarith), jsMod_one_of_nonneg _ hx]
      exact Int.fract_add_one (t * (bpm / 60))
    simp only [breathingCurve]
    rw [hphase]
  · simp only [breathingCurve]
    norm_num [jsMod, jsTrunc, easeOutSine]
  · have h04 : (0.4 * (60 / bpm)) * (bpm / 60) = 0.4 := by
      field_simp
    simp only [breathingCurve]
    rw [h04]
    norm_num [jsMod, jsTrunc, easeInSine]

theorem breathingCurve_period_witness :
    (0:ℝ) < 14 ∧ (0:ℝ) ≤ 0 ∧ breathingCurve (0 + 60 / 14) 14 = breathingCurve 0 14 :=
  ⟨by norm_num, le_refl 0, (breathingCurve_period 0 14 (by norm_num) (le_refl 0)).1⟩

/-- JS `||` with a numeric default, as in `params?.strideLength || 25`:
`undefined` and `0` are both falsy, so an absent value or a stored `0`
yields the default. -/
def jsOrNum (v : Option ℝ) (d : ℝ) : ℝ :=
  match v with
  | none => d
  | some x => if x = 0 then d else x

/-- A JS `Record<string, ...>` as an association list in insertion order
(keys unique by construction, later writes overwrite in place). -/
abbrev PoseMap := List (String × Vec3)

def lookupMap {α : Type} (m : List (String × α)) (k : String) : Option α :=
  (m.find? (fun p => p.1 == k)).map Prod.snd

/-- Record read with the `|| [0,0,0]` default used throughout the source. -/
def getRotD (m : PoseMap) (k : String) : Vec3 := (lookupMap m k).getD ⟨0, 0, 0⟩

/-- Record write: overwrite in place if present, else append (JS property
assignment semantics, preserving `Object.entries` insertion order). -/
def setKey {α : Type} (m : List (String × α)) (k : String) (v : α) : List (String × α) :=
  if m.any (fun p => p.1 == k) then
    m.map (fun p => if p.1 == k then (k, v) else p)
  else m ++ [(k, v)]

theorem lookupMap_cons {α : Type} (a : String × α) (as : List (String × α)) (k : String) :
    lookupMap (a :: as) k = if a.1 = k then some a.2 else lookupMap as k := by
  by_cases h : a.1 = k
  · simp [lookupMap, List.find?_cons_of_pos, h]
  · simp [lookupMap, List.find?_cons_of_neg, h]

theorem lookupMap_map_replace_self {α : Type} (as : List (String × α)) (k : String) (v : α)
    (h : as.any (fun p => p.1 == k) = true) :
    lookupMap (as.map (fun p => if p.1 == k then (k, v) else p)) k = some v := by
  induction as with
  | nil => simp at h
  | cons a as ih =>
    simp only [List.map_cons]
    by_cases hak : a.1 = k
    · rw [if_pos (by simpa using hak), lookupMap_cons]
      simp
    · rw [if_neg (by simpa using hak), lookupMap_cons, if_neg hak]
      apply ih
      simp only [List.any_cons, Bool.or_eq_true] at h
      rcases h with h | h
      · exact absurd (by simpa using h) hak
      · exact h

theorem lookupMap_map_replace_ne {α : Type} (as : List (String × α)) (k k' : String) (v : α)
    (hne : ¬ k' = k) :
    lookupMap (as.map (fun p => if p.1 == k then (k, v) else p)) k' = lookupMap as k' := by
  induction as with
  | nil => rfl
  | cons a as ih =>
    simp only [List.map_cons]
    by_cases hak : a.1 = k
    · rw [if_pos (by simpa using hak), lookupMap_cons, lookupMap_cons,
        if_neg (fun hh => hne hh.symm), if_neg (fun hh => hne (hak ▸ hh).symm)]
      exact ih
    · rw [if_neg (by simpa using hak), lookupMap_cons, lookupMap_cons]
      by_cases hak' : a.1 = k'
      · rw [if_pos hak', if_pos hak']
      · rw [if_neg hak', if_neg hak']
        exact ih

theorem lookupMap_append_self {α : Type} (m : List (String × α)) (k : String) (v : α)
    (h : m.any (fun p => p.1 == k) = false) :
    lookupMap (m ++ [(k, v)]) k = some v := by
  induction m with
  | nil => simp [lookupMap_cons]
  | cons a as ih =>
    simp only [List.any_cons, Bool.or_eq_false_iff] at h
    rw [List.cons_append, lookupMap_cons, if_neg (by simpa using h.1)]
    exact ih h.2

theorem lookupMap_append_ne {α : Type} (m : List (String × α)) (k k' : String) (v : α)
    (hne : ¬ k' = k) :
    lookupMap (m ++ [(k, v)]) k' = lookupMap m k' := by
  induction m with
  | nil => rw [List.nil_append, lookupMap_cons, if_neg fun hh => hne hh.symm]
  | cons a as ih =>
    rw [List.cons_append, lookupMap_cons, lookupMap_cons]
    by_cases hak : a.1 = k'
    · rw [if_pos hak, if_pos hak]
    · rw [if_neg hak, if_neg hak]
      exact ih

theorem lookupMap_setKey_self {α : Type} (m : List (String × α)) (k : String) (v : α) :
    lookupMap (setKey m k v) k = some v := by
  unfold setKey
  split
  case isTrue h => exact lookupMap_map_replace_self m k v h
  case isFalse h => exact lookupMap_append_self m k v (Bool.eq_false_iff.mpr h)

theorem lookupMap_setKey_ne {α : Type} (m : List (String × α)) (k k' : String) (v : α)
    (hne : ¬ k' = k) : lookupMap (setKey m k v) k' = lookupMap m k' := by
  unfold setKey
  split
  case isTrue _ => exact lookupMap_map_replace_ne m k k' v hne
  case isFalse _ => exact lookupMap_append_ne m k k' v hne

/-- The `params` object of a `BodyMotion` (`config/poses.ts`): the fields
the animation code reads. -/
structure MotionParams where
  amplitude : Option ℝ
  strideLength : Option ℝ
  armSwing : Option ℝ

/-- Embeds `calculateWalkingOffsets` from `PoseController.ts`: writes leg, arm,
spine/chest/head/neck/hips offset triples (degrees) into `offsets`. -/
def calculateWalkingOffsets (time : ℝ) (params : MotionParams) (intensity : ℝ)
    (offsets : PoseMap) : PoseMap :=
  let strideLength := jsOrNum params.strideLength 25 * intensity
  let armSwing := jsOrNum params.armSwing 30 * intensity
  let bodyBob := jsOrNum params.amplitude 3 * intensity
  let walkCycle := time * Real.pi * 2
  let legPhase := Real.sin walkCycle
  let legPhaseOffset := Real.sin (walkCycle + Real.pi)
  let kneePhase := (max 0 (Real.sin walkCycle)) * 0.5
  let kneePhaseOffset := (max 0 (Real.sin (walkCycle + Real.pi))) * 0.5
  let o := setKey offsets "leftUpperLeg" ⟨legPhase * strideLength, 0, 0⟩
  let o := setKey o "rightUpperLeg" ⟨legPhaseOffset * strideLength, 0, 0⟩
  let leftKneeBend := (max 0 legPhase) * strideLength * 0.8 + kneePhase * 20
  let rightKneeBend := (max 0 legPhaseOffset) * strideLength * 0.8 + kneePhaseOffset * 20
  let o := setKey o "leftLowerLeg" ⟨leftKneeBend, 0, 0⟩
  let o := setKey o "rightLowerLeg" ⟨rightKneeBend, 0, 0⟩
  let o := setKey o "leftUpperArm" ⟨-legPhaseOffset * armSwing * 0.6, 0, 0⟩
  let o := setKey o "rightUpperArm" ⟨-legPhase * armSwing * 0.6, 0, 0⟩
  let o := setKey o "leftLowerArm" ⟨(max 0 (-legPhaseOffset)) * armSwing * 0.3, 0, 0⟩
  let o := setKey o "rightLowerArm" ⟨(max 0 (-legPhase)) * armSwing * 0.3, 0, 0⟩
  let doubleBounce := |Real.sin (walkCycle * 2)|
  let o := setKey o "spine" ⟨bodyBob * 0.5, legPhase * bodyBob * 0.3, legPhase * bodyBob * 0.2⟩
  let o := setKey o "chest" ⟨doubleBounce * bodyBob * 0.2, -legPhase * bodyBob * 0.2, 0⟩
  let o := setKey o "head" ⟨-doubleBounce * bodyBob * 0.1, legPhase * bodyBob * 0.1, 0⟩
  let o := setKey o "neck" ⟨0, -legPhase * bodyBob * 0.15, 0⟩
  setKey o "hips" ⟨0, legPhase * bodyBob * 0.5, legPhase * bodyBob * 0.3⟩

/-- Claim C7: in the walking offsets the two upper legs are driven in
anti-phase by the same stride factor — the right upper leg's x offset is
exactly the negation of the left's — and both legs' y and z offsets are 0. -/
theorem walking_upper_leg_symmetry (time : ℝ) (params : MotionParams) (intensity : ℝ) :
    (getRotD (calculateWalkingOffsets time params intensity []) "rightUpperLeg").x =
      -(getRotD (calculateWalkingOffsets time params intensity []) "leftUpperLeg").x
    ∧ (getRotD (calculateWalkingOffsets time params intensity []) "leftUpperLeg").x =
      Real.sin (time * Real.pi * 2) * (jsOrNum params.strideLength 25 * intensity)
    ∧ (getRotD (calculateWalkingOffsets time params intensity []) "leftUpperLeg").y = 0
    ∧ (getRotD (calculateWalkingOffsets time params intensity []) "leftUpperLeg").z = 0
    ∧ (getRotD (calculateWalkingOffsets time params intensity []) "rightUpperLeg").y = 0
    ∧ (getRotD (calculateWalkingOffsets time params intensity []) "rightUpperLeg").z = 0 := by
  simp only [calculateWalkingOffsets, getRotD, lookupMap_setKey_self, lookupMap_setKey_ne,
    Option.getD_some, String.reduceEq, not_false_eq_true, Real.sin_add_pi]
  exact ⟨by ring, trivial, trivial, trivial, trivial, trivial⟩

/-- Claim C9: with `intensity ∈ [0,1]` and a non-negative (defaulted)
stride length, the lower-leg (knee) x offsets are non-negative for both
legs at every time — knees never bend backward. -/
theorem walking_knee_bend_nonneg (time : ℝ) (params : MotionParams) (intensity : ℝ)
    (h0 : 0 ≤ intensity) (h1 : intensity ≤ 1)
    (hs : 0 ≤ jsOrNum params.strideLength 25) :
    0 ≤ (getRotD (calculateWalkingOffsets time params intensity []) "leftLowerLeg").x
    ∧ 0 ≤ (getRotD (calculateWalkingOffsets time params intensity []) "rightLowerLeg").x := by
  have hstride : 0 ≤ jsOrNum params.strideLength 25 * intensity := mul_nonneg hs h0
  have hm1 : (0:ℝ) ≤ max 0 (Real.sin (time * Real.pi * 2)) := le_max_left _ _
  have hm2 : (0:ℝ) ≤ max 0 (Real.sin (time * Real.pi * 2 + Real.pi)) := le_max_left _ _
  constructor <;>
  · simp only [calculateWalkingOffsets, getRotD, lookupMap_setKey_self, lookupMap_setKey_ne,
      Option.getD_some, String.reduceEq, not_false_eq_true]
    positivity

/-- Per-bone interpolation state (`BoneState` in `PoseController.ts`):
current rotation, target rotation and velocity, all in radians. -/
structure BoneState where
  current : Vec3
  target : Vec3
  velocity : Vec3

/-- An in-flight pose transition (`PoseTransition` in `PoseController.ts`).
`fromPose`/`toPose` are degree triples per bone name. -/
structure PoseTransitionState where
  fromPose : PoseMap
  toPose : PoseMap
  startTime : ℝ
  duration : ℝ
  easing : ℝ → ℝ

/-- One gesture keyframe (`{time, bones}` from `config/poses.ts`). -/
structure GestureKeyframe where
  time : ℝ
  bones : PoseMap

/-- A `BodyGesture` (`config/poses.ts`): duration in ms, loop flag and
ordered keyframes. -/
structure BodyGesture where
  duration : ℝ
  loop : Bool
  keyframes : List GestureKeyframe

/-- The controller's gesture playback record (`gestureAnimation` field). -/
structure GestureAnimationState where
  gesture : BodyGesture
  startTime : ℝ
  isPlaying : Bool

/-- The `type` discriminator of a `BodyMotion`. -/
inductive MotionType
  | breathing
  | sway
  | bounce
  | float
  | walk
  | custom
deriving DecidableEq

/-- A `BodyMotion` (`config/poses.ts`): the fields the controller reads. -/
structure BodyMotion where
  motionType : MotionType
  speed : ℝ
  intensity : ℝ
  params : Option MotionParams

/-- A `PosePreset` (`config/poses.ts`): the field the controller reads. -/
structure PosePreset where
  bones : PoseMap

/-- The complete `PoseController` instance state, together with the rig it
drives.  `hasVrm` models `this.vrm?.humanoid` (and `this.vrm?.scene`)
being present; `rigHasBone`/`rigRot` model
`humanoid.getNormalizedBoneNode(name)` returning a node or `null` and that
node's mutable `rotation`; `scenePositionY` models `vrm.scene.position.y`. -/
structure CtrlState where
  hasVrm : Bool
  rigHasBone : String → Bool
  rigRot : String → Vec3
  basePose : PoseMap
  boneStates : List (String × BoneState)
  poseTransition : Option PoseTransitionState
  currentMotion : Option BodyMotion
  gestureAnimation : Option GestureAnimationState
  motionTime : ℝ
  elapsedTime : ℝ
  basePosition : Vec3
  currentPositionY : ℝ
  positionVelocityY : ℝ
  scenePositionY : ℝ
  transitionDuration : ℝ
  smoothTime : ℝ

/-- Embeds `BONE_MAP` from `PoseController.ts`: friendly name → VRM humanoid bone
name (all seventeen entries map to themselves). -/
def BONE_MAP : List (String × String) :=
  [("spine", "spine"), ("chest", "chest"), ("neck", "neck"), ("head", "head"),
   ("leftUpperArm", "leftUpperArm"), ("leftLowerArm", "leftLowerArm"),
   ("leftHand", "leftHand"), ("rightUpperArm", "rightUpperArm"),
   ("rightLowerArm", "rightLowerArm"), ("rightHand", "rightHand"),
   ("leftUpperLeg", "leftUpperLeg"), ("leftLowerLeg", "leftLowerLeg"),
   ("leftFoot", "leftFoot"), ("rightUpperLeg", "rightUpperLeg"),
   ("rightLowerLeg", "rightLowerLeg"), ("rightFoot", "rightFoot"),
   ("hips", "hips")]

/-- Embeds `DEFAULT_RELAXED_POSE` from `PoseController.ts`. -/
def DEFAULT_RELAXED_POSE : PoseMap :=
  [("leftUpperArm", ⟨20, 0, -70⟩), ("rightUpperArm", ⟨20, 0, 70⟩),
   ("leftLowerArm", ⟨0, 0, -15⟩), ("rightLowerArm", ⟨0, 0, 15⟩),
   ("spine", ⟨2, 0, 0⟩), ("chest", ⟨0, 0, 0⟩), ("neck", ⟨0, 0, 0⟩),
   ("head", ⟨0, 0, 0⟩)]

/-- Embeds `this.gestureAnimation?.isPlaying` (truthiness test used by
`updateBodyMotion`). -/
def gestureIsPlaying (s : CtrlState) : Bool :=
  match s.gestureAnimation with
  | some ga => ga.isPlaying
  | none => false

/-- Embeds `playBodyGesture` from `PoseController.ts`: records the gesture with
start time `elapsedTime * 1000` (ms) and `isPlaying = true`. -/
def playBodyGesture (gesture : BodyGesture) (s : CtrlState) : CtrlState :=
  { s with gestureAnimation := some ⟨gesture, s.elapsedTime * 1000, true⟩ }

/-- Embeds `stopBodyGesture` from `PoseController.ts`. -/
def stopBodyGesture (s : CtrlState) : CtrlState :=
  { s with gestureAnimation := none }

/-- Embeds `setBodyMotion` from `PoseController.ts`. -/
def setBodyMotion (motion : BodyMotion) (s : CtrlState) : CtrlState :=
  { s with currentMotion := some motion }

/-- Embeds `{...a, ...b}` object spread on records: `a`'s keys in order with `b`'s
values overriding, then `b`'s new keys in order. -/
def mergePose (a b : PoseMap) : PoseMap :=
  a.map (fun p =>
    match lookupMap b p.1 with
    | some v => (p.1, v)
    | none => p)
  ++ b.filter (fun q => !(a.any (fun p => p.1 == q.1)))

/-- Embeds `applyPose` from `PoseController.ts`: `fromPose` is each touched
bone's current (already smooth-damped) rotation converted back to degrees
(falling back to `basePose[bone] || [0,0,0]` when the bone has no state),
`toPose` is `{...basePose, ...pose.bones}`; the base pose is updated to
`toPose` immediately. -/
def applyPose (pose : PosePreset) (s : CtrlState) : CtrlState :=
  if ¬ s.hasVrm then s else
  let merged := mergePose s.basePose pose.bones
  let fromPose : PoseMap := merged.map (fun p =>
    (p.1,
     match lookupMap s.boneStates p.1 with
     | some st =>
         ⟨st.current.x / (Real.pi / 180), st.current.y / (Real.pi / 180),
          st.current.z / (Real.pi / 180)⟩
     | none => getRotD s.basePose p.1))
  { s with
    poseTransition := some ⟨fromPose, merged, s.elapsedTime, s.transitionDuration,
      easeInOutCubic⟩,
    basePose := merged }

/-- The per-bone loop body of `updatePoseTransition`: write the eased
interpolation between `fromPose` (defaulting missing bones to `[0,0,0]`)
and the `toPose` entry `p` as the bone's radian target. -/
def transitionStep (fromPose : PoseMap) (easedProgress : ℝ)
    (bs : List (String × BoneState)) (p : String × Vec3) : List (String × BoneState) :=
  let fromRotation := getRotD fromPose p.1
  match lookupMap bs p.1 with
  | none => bs
  | some st =>
    setKey bs p.1
      { st with target :=
          ⟨degToRad (fromRotation.x + (p.2.x - fromRotation.x) * easedProgress),
           degToRad (fromRotation.y + (p.2.y - fromRotation.y) * easedProgress),
           degToRad (fromRotation.z + (p.2.z - fromRotation.z) * easedProgress)⟩ }

/-- Embeds `updatePoseTransition` from `PoseController.ts`: eases every bone of
`toPose` from `fromPose` toward `toPose` (radian targets), clearing the
transition once `progress >= 1`. -/
def updatePoseTransition (s : CtrlState) : CtrlState :=
  match s.poseTransition with
  | none => s
  | some tr =>
    if ¬ s.hasVrm then s else
    let elapsed := s.elapsedTime - tr.startTime
    let progress := min (elapsed / tr.duration) 1
    let easedProgress := tr.easing progress
    let bs := tr.toPose.foldl (transitionStep tr.fromPose easedProgress) s.boneStates
    let s' := { s with boneStates := bs }
    if 1 ≤ progress then { s' with poseTransition := none } else s'

/-- The bracketing-keyframe scan of `updateGestureAnimation`: the first
adjacent pair `(k_i, k_{i+1})` with `k_i.time <= progress < k_{i+1}.time`. -/
def scanKeyframes (progress : ℝ) : List GestureKeyframe → Option (GestureKeyframe × GestureKeyframe)
  | a :: b :: rest =>
      if a.time ≤ progress ∧ progress < b.time then some (a, b)
      else scanKeyframes progress (b :: rest)
  | _ => none

/-- The per-bone loop body of the gesture keyframe interpolation: write
the eased interpolation from the previous keyframe's value (missing bones
default to `[0,0,0]`) toward the next keyframe's entry `p` as the bone's
radian target. -/
def gestureKeyframeStep (prevBones : PoseMap) (t : ℝ)
    (bs : List (String × BoneState)) (p : String × Vec3) : List (String × BoneState) :=
  let prevRotation := getRotD prevBones p.1
  match lookupMap bs p.1 with
  | none => bs
  | some st =>
    setKey bs p.1
      { st with target :=
          ⟨degToRad (prevRotation.x + (p.2.x - prevRotation.x) * t),
           degToRad (prevRotation.y + (p.2.y - prevRotation.y) * t),
           degToRad (prevRotation.z + (p.2.z - prevRotation.z) * t)⟩ }

/-- The keyframe-interpolation tail of `updateGestureAnimation`: pick the
bracketing pair (defaulting to `keyframes[0]` and `keyframes[1] ||
keyframes[0]`), ease the local `t` with `easeInOutSine`, and write the
interpolated radian target for every bone of the *next* keyframe
(defaulting the previous keyframe's missing bones to `[0,0,0]`).  With an
empty keyframe list, `keyframes[0]` is `undefined` and the source throws a
`TypeError` reading `.time`; that is the `none` result. -/
def applyGestureKeyframes (gesture : BodyGesture) (progress : ℝ)
    (boneStates : List (String × BoneState)) : Option (List (String × BoneState)) :=
  match gesture.keyframes with
  | [] => none
  | k0 :: rest =>
    let pn := (scanKeyframes progress gesture.keyframes).getD (k0, rest.headD k0)
    let prevKeyframe := pn.1
    let nextKeyframe := pn.2
    let keyframeDuration := nextKeyframe.time - prevKeyframe.time
    let rawT := if 0 < keyframeDuration then (progress - prevKeyframe.time) / keyframeDuration else 0
    let t := easeInOutSine rawT
    some (nextKeyframe.bones.foldl (gestureKeyframeStep prevKeyframe.bones t) boneStates)

/-- Embeds `updateGestureAnimation` from `PoseController.ts`.  `none` models a
thrown exception (empty keyframe list). -/
def updateGestureAnimation (s : CtrlState) : Option CtrlState :=
  match s.gestureAnimation with
  | none => some s
  | some ga =>
    if ¬ s.hasVrm then some s else
    if ga.isPlaying = false then some s else
    let elapsed := s.elapsedTime * 1000 - ga.startTime
    let progress := elapsed / ga.gesture.duration
    if 1 ≤ progress then
      if ga.gesture.loop then
        (applyGestureKeyframes ga.gesture 0 s.boneStates).map (fun bs =>
          { s with gestureAnimation := some { ga with startTime := s.elapsedTime * 1000 },
                   boneStates := bs })
      else some { s with gestureAnimation := none }
    else
      (applyGestureKeyframes ga.gesture progress s.boneStates).map (fun bs =>
        { s with boneStates := bs })

/-- Embeds `calculateBreathingOffsets` from `PoseController.ts`. -/
def calculateBreathingOffsets (time amplitude : ℝ) (offsets : PoseMap) : PoseMap :=
  let breathValue := breathingCurve time 14
  let o := setKey offsets "chest" ⟨breathValue * amplitude * 0.4, 0, 0⟩
  let o := setKey o "spine" ⟨breathValue * amplitude * 0.2, 0, 0⟩
  let o := setKey o "leftUpperArm"
    ⟨-breathValue * amplitude * 0.1, 0, -breathValue * amplitude * 0.15⟩
  setKey o "rightUpperArm"
    ⟨-breathValue * amplitude * 0.1, 0, breathValue * amplitude * 0.15⟩

/-- Embeds `calculateSwayOffsets` from `PoseController.ts` (read-modify-write with
`offsets.x = offsets.x || [0,0,0]` defaults). -/
def calculateSwayOffsets (time amplitude : ℝ) (offsets : PoseMap) : PoseMap :=
  let swayValue := organicOscillation time 0.15
  let spine0 := getRotD offsets "spine"
  let o := setKey offsets "spine" { spine0 with z := spine0.z + swayValue * amplitude }
  let head0 := getRotD o "head"
  setKey o "head"
    { head0 with z := head0.z + swayValue * amplitude * 0.3,
                 y := head0.y + swayValue * amplitude * 0.2 }

/-- Embeds `calculateHeadMicroMovement` from `PoseController.ts`. -/
def calculateHeadMicroMovement (time intensity : ℝ) (offsets : PoseMap) : PoseMap :=
  let movement := headMicroMovement time
  let head0 := getRotD offsets "head"
  let o := setKey offsets "head"
    ⟨head0.x + movement.2.1 * intensity,
     head0.y + movement.1 * intensity,
     head0.z + movement.2.2 * intensity⟩
  let neck0 := getRotD o "neck"
  setKey o "neck"
    { neck0 with x := neck0.x + movement.2.1 * intensity * 0.3,
                 y := neck0.y + movement.1 * intensity * 0.2 }

/-- Embeds `updateBouncePosition` from `PoseController.ts`: smooth-damps the
scene's vertical position toward `basePosition.y + |sin(t*2π)|*amp`. -/
def updateBouncePosition (time amplitude delta : ℝ) (s : CtrlState) : CtrlState :=
  if ¬ s.hasVrm then s else
  let bounceValue := |Real.sin (time * Real.pi * 2)| * amplitude
  let targetY := s.basePosition.y + bounceValue
  let r := smoothDamp s.currentPositionY targetY s.positionVelocityY 0.08 delta none
  { s with currentPositionY := r.1, positionVelocityY := r.2, scenePositionY := r.1 }

/-- Embeds `updateFloatPosition` from `PoseController.ts`. -/
def updateFloatPosition (time amplitude delta : ℝ) (s : CtrlState) : CtrlState :=
  if ¬ s.hasVrm then s else
  let floatValue := Real.sin (time * Real.pi * 0.5) * amplitude
  let targetY := s.basePosition.y + floatValue
  let r := smoothDamp s.currentPositionY targetY s.positionVelocityY 0.3 delta none
  { s with currentPositionY := r.1, positionVelocityY := r.2, scenePositionY := r.1 }

/-- The offset-application loop at the end of `updateBodyMotion`: for each
offset entry, set the bone's target to `basePose + offset` (in radians) —
but only when the bone has a state *and no pose transition is in flight*. -/
def motionOffsetStep (s : CtrlState) (bs : List (String × BoneState))
    (p : String × Vec3) : List (String × BoneState) :=
  let basePoseRotation := getRotD s.basePose p.1
  match lookupMap bs p.1 with
  | none => bs
  | some st =>
    match s.poseTransition with
    | some _ => bs
    | none =>
      setKey bs p.1
        { st with target :=
            ⟨degToRad (basePoseRotation.x + p.2.x),
             degToRad (basePoseRotation.y + p.2.y),
             degToRad (basePoseRotation.z + p.2.z)⟩ }

/-- See `motionOffsetStep` for the per-entry body. -/
def applyMotionOffsets (offsets : PoseMap) (s : CtrlState) : CtrlState :=
  { s with boneStates := offsets.foldl (motionOffsetStep s) s.boneStates }

/-- Embeds `updateBodyMotion` from `PoseController.ts`: early-outs (no motion, no
rig, zero intensity / param-less custom, gesture playing), then offsets by
motion type (bounce/float move the scene root instead). -/
def updateBodyMotion (delta : ℝ) (s : CtrlState) : CtrlState :=
  match s.currentMotion with
  | none => s
  | some motion =>
    if ¬ s.hasVrm then s else
    if motion.intensity = 0 ∨ (motion.motionType = MotionType.custom ∧ motion.params = none) then s else
    if gestureIsPlaying s then s else
    let time := s.motionTime * motion.speed
    let amplitude := jsOrNum (motion.params.bind MotionParams.amplitude) 2 * motion.intensity
    match motion.motionType with
    | MotionType.breathing => applyMotionOffsets (calculateBreathingOffsets time amplitude []) s
    | MotionType.sway => applyMotionOffsets (calculateSwayOffsets time amplitude []) s
    | MotionType.bounce => updateBouncePosition time amplitude delta s
    | MotionType.float => updateFloatPosition time amplitude delta s
    | MotionType.walk =>
        applyMotionOffsets
          (calculateWalkingOffsets time (motion.params.getD ⟨none, none, none⟩) motion.intensity []) s
    | MotionType.custom =>
        applyMotionOffsets
          (calculateHeadMicroMovement time motion.intensity
            (calculateSwayOffsets (time * 0.7) (amplitude * 0.3)
              (calculateBreathingOffsets time (amplitude * 0.6) []))) s

/-- Embeds `applyBoneRotations` from `PoseController.ts`: for every tracked bone
with a `BONE_MAP` entry and a rig binding, smooth-damp each axis of
`current` toward `target` and write the result to the rig node. -/
def boneRotationStep (delta : ℝ) (s : CtrlState) (p : String × BoneState) : CtrlState :=
  match lookupMap BONE_MAP p.1 with
  | none => s
  | some vrmBoneName =>
    if ¬ s.rigHasBone vrmBoneName then s else
    let st := p.2
    let rx := smoothDamp st.current.x st.target.x st.velocity.x s.smoothTime delta none
    let ry := smoothDamp st.current.y st.target.y st.velocity.y s.smoothTime delta none
    let rz := smoothDamp st.current.z st.target.z st.velocity.z s.smoothTime delta none
    let st' : BoneState := ⟨⟨rx.1, ry.1, rz.1⟩, st.target, ⟨rx.2, ry.2, rz.2⟩⟩
    { s with boneStates := setKey s.boneStates p.1 st',
             rigRot := fun n => if n = vrmBoneName then ⟨rx.1, ry.1, rz.1⟩ else s.rigRot n }

/-- See `boneRotationStep` for the per-bone body. -/
def applyBoneRotations (delta : ℝ) (s : CtrlState) : CtrlState :=
  if ¬ s.hasVrm then s else
  s.boneStates.foldl (boneRotationStep delta) s

/-- Embeds `update(delta)` from `PoseController.ts`: advance the clocks, then the
four phases in source order.  `none` models an exception escaping
`update` (thrown inside `updateGestureAnimation`). -/
def update (delta : ℝ) (s : CtrlState) : Option CtrlState :=
  if ¬ s.hasVrm then some s else
  (updateGestureAnimation (updatePoseTransition
    { s with motionTime := s.motionTime + delta, elapsedTime := s.elapsedTime + delta })).map
    (fun s3 => applyBoneRotations delta (updateBodyMotion delta s3))

/-- Embeds `initializeBoneStates` from `PoseController.ts`: one `BoneState` per
`BONE_MAP` entry whose rig node exists, current = target = the rig's
current rotation, zero velocity. -/
def initBoneStep (s : CtrlState) (bs : List (String × BoneState))
    (p : String × String) : List (String × BoneState) :=
  if s.rigHasBone p.2 then
    setKey bs p.1 ⟨s.rigRot p.2, s.rigRot p.2, ⟨0, 0, 0⟩⟩
  else bs

/-- See `initBoneStep` for the per-entry body. -/
def initializeBoneStates (s : CtrlState) : CtrlState :=
  if ¬ s.hasVrm then s else
  { s with boneStates := BONE_MAP.foldl (initBoneStep s) s.boneStates }

/-- Embeds `applyPoseImmediate` from `PoseController.ts`: write the pose's radian
rotations straight to the rig and snap current/target/velocity, then make
the pose the base pose. -/
def poseImmediateStep (s : CtrlState) (p : String × Vec3) : CtrlState :=
  match lookupMap BONE_MAP p.1 with
  | none => s
  | some vrmBoneName =>
    if ¬ s.rigHasBone vrmBoneName then s else
    let rot : Vec3 := ⟨degToRad p.2.x, degToRad p.2.y, degToRad p.2.z⟩
    let s1 := { s with rigRot := fun n => if n = vrmBoneName then rot else s.rigRot n }
    match lookupMap s1.boneStates p.1 with
    | none => s1
    | some _ => { s1 with boneStates := setKey s1.boneStates p.1 ⟨rot, rot, ⟨0, 0, 0⟩⟩ }

/-- See `poseImmediateStep` for the per-bone body. -/
def applyPoseImmediate (pose : PoseMap) (s : CtrlState) : CtrlState :=
  if ¬ s.hasVrm then s else
  { pose.foldl poseImmediateStep s with basePose := pose }

/-- Embeds `init(vrm)` from `PoseController.ts`: reset the clocks and per-bone
state, build bone states from the rig, and snap to the default relaxed
pose. -/
def init (s : CtrlState) : CtrlState :=
  let s' := { s with hasVrm := true, motionTime := 0, elapsedTime := 0,
                     boneStates := [], poseTransition := none,
                     currentPositionY := 0, positionVelocityY := 0 }
  applyPoseImmediate DEFAULT_RELAXED_POSE (initializeBoneStates s')

/-- A hand side for `applyFingerPose` ("left" | "right"). -/
inductive HandSide
  | left
  | right
deriving DecidableEq

/-- The `hand` selector of a `HandGesture` ("left" | "right" | "both"). -/
inductive HandSelector
  | left
  | right
  | both
deriving DecidableEq

/-- The per-finger curl map of a `HandGesture` (each finger optional). -/
structure HandFingers where
  thumb : Option ℝ
  index : Option ℝ
  middle : Option ℝ
  ring : Option ℝ
  pinky : Option ℝ

/-- A `HandGesture` (`config/poses.ts`): the fields the controller reads. -/
structure HandGesture where
  hand : HandSelector
  fingers : HandFingers

/-- The `fingerBones` table of `applyFingerPose`: per finger, its three
joint bone names (built from the side's lowercase name) and the
`isThumb` flag. -/
def fingerBonesTable (pfx : String) : List (String × (List String × Bool)) :=
  [("thumb", ([pfx ++ "ThumbMetacarpal", pfx ++ "ThumbProximal", pfx ++ "ThumbDistal"], true)),
   ("index", ([pfx ++ "IndexProximal", pfx ++ "IndexIntermediate", pfx ++ "IndexDistal"], false)),
   ("middle", ([pfx ++ "MiddleProximal", pfx ++ "MiddleIntermediate", pfx ++ "MiddleDistal"], false)),
   ("ring", ([pfx ++ "RingProximal", pfx ++ "RingIntermediate", pfx ++ "RingDistal"], false)),
   ("pinky", ([pfx ++ "LittleProximal", pfx ++ "LittleIntermediate", pfx ++ "LittleDistal"], false))]

/-- The lowercase name of a hand side ("left" / "right"). -/
def sideName (side : HandSide) : String :=
  match side with
  | HandSide.left => "left"
  | HandSide.right => "right"

/-- The inner joint loop of `applyFingerPose` for one finger: distribute
the curl across the joints (thumb `0.3/0.4/0.3`, others `0.5/0.35/0.15`,
each scaled by `π/2` and a `2.5×` gain); the thumb's metacarpal rotates on
y and z, its other joints on z (mirrored by side); every other finger
bends only on the x axis.  Missing rig joints are skipped. -/
def fingerJointStep (side : HandSide) (curl : ℝ) (isThumb : Bool)
    (s : CtrlState) (q : ℕ × (String × ℝ)) : CtrlState :=
  let i := q.1
  let boneName := q.2.1
  if ¬ s.rigHasBone boneName then s else
  let jointCurl := curl * (Real.pi / 2) * q.2.2 * 2.5
  if isThumb then
    if i = 0 then
      { s with rigRot := fun n => if n = boneName then
          { s.rigRot boneName with
              y := if side = HandSide.left then jointCurl * 0.5 else -(jointCurl * 0.5),
              z := if side = HandSide.left then jointCurl * 0.3 else -(jointCurl * 0.3) }
        else s.rigRot n }
    else
      { s with rigRot := fun n => if n = boneName then
          { s.rigRot boneName with
              z := if side = HandSide.left then jointCurl * 0.8 else -(jointCurl * 0.8) }
        else s.rigRot n }
  else
    { s with rigRot := fun n => if n = boneName then
        { s.rigRot boneName with x := jointCurl }
      else s.rigRot n }

/-- See `fingerJointStep` for the per-joint body. -/
def applyFingerCurl (side : HandSide) (curl : ℝ) (bones : List String) (isThumb : Bool)
    (s : CtrlState) : CtrlState :=
  let curlDistribution : List ℝ := if isThumb then [0.3, 0.4, 0.3] else [0.5, 0.35, 0.15]
  ((bones.zip curlDistribution).enum).foldl (fingerJointStep side curl isThumb) s

/-- Embeds `applyFingerPose` from `PoseController.ts`: apply each provided
finger's curl via `applyFingerCurl` (fingers with `undefined` curl are
skipped). -/
def fingerEntryStep (side : HandSide) (pfx : String) (s : CtrlState)
    (e : String × Option ℝ) : CtrlState :=
  match e.2 with
  | none => s
  | some curl =>
    match lookupMap (fingerBonesTable pfx) e.1 with
    | none => s
    | some fb => applyFingerCurl side curl fb.1 fb.2 s

/-- See `fingerEntryStep` for the per-finger body. -/
def applyFingerPose (side : HandSide) (fingers : HandFingers) (s : CtrlState) : CtrlState :=
  if ¬ s.hasVrm then s else
  let pfx := sideName side
  let entries : List (String × Option ℝ) :=
    [("thumb", fingers.thumb), ("index", fingers.index), ("middle", fingers.middle),
     ("ring", fingers.ring), ("pinky", fingers.pinky)]
  entries.foldl (fingerEntryStep side pfx) s

/-- Embeds `applyHandGesture` from `PoseController.ts`. -/
def applyHandGesture (gesture : HandGesture) (s : CtrlState) : CtrlState :=
  if ¬ s.hasVrm then s else
  let s1 :=
    if gesture.hand = HandSelector.left ∨ gesture.hand = HandSelector.both then
      applyFingerPose HandSide.left gesture.fingers s
    else s
  if gesture.hand = HandSelector.right ∨ gesture.hand = HandSelector.both then
    applyFingerPose HandSide.right gesture.fingers s1
  else s1

/-- The 30 VRM finger-joint bone names touched by `applyFingerPose`. -/
def fingerVrmBoneNames : List String :=
  ["leftThumbMetacarpal", "leftThumbProximal", "leftThumbDistal",
   "leftIndexProximal", "leftIndexIntermediate", "leftIndexDistal",
   "leftMiddleProximal", "leftMiddleIntermediate", "leftMiddleDistal",
   "leftRingProximal", "leftRingIntermediate", "leftRingDistal",
   "leftLittleProximal", "leftLittleIntermediate", "leftLittleDistal",
   "rightThumbMetacarpal", "rightThumbProximal", "rightThumbDistal",
   "rightIndexProximal", "rightIndexIntermediate", "rightIndexDistal",
   "rightMiddleProximal", "rightMiddleIntermediate", "rightMiddleDistal",
   "rightRingProximal", "rightRingIntermediate", "rightRingDistal",
   "rightLittleProximal", "rightLittleIntermediate", "rightLittleDistal"]

/-- The three thumb joints of a side (the only joints whose y/z rotations
`applyFingerPose` writes). -/
def thumbJointNames (side : HandSide) : List String :=
  [sideName side ++ "ThumbMetacarpal", sideName side ++ "ThumbProximal",
   sideName side ++ "ThumbDistal"]

/-- The mouth layer's configuration (`MouthAnimationConfig` with defaults
applied in the `SpeechMouthLayer` constructor). -/
structure MouthConfig where
  smoothing : ℝ
  threshold : ℝ
  maxOpen : ℝ
  sensitivity : ℝ

/-- Embeds `SpeechMouthLayer` instance state.  `hasVrm` models `this.vrm` being
set, `hasExpressionManager` models `vrm.expressionManager` being present. -/
structure MouthLayerState where
  hasVrm : Bool
  hasExpressionManager : Bool
  enabled : Bool
  currentValue : ℝ
  velocity : ℝ
  peakValue : ℝ
  peakDecay : ℝ
  config : MouthConfig

/-- The target-mouth-value computation at the top of
`SpeechMouthLayer.update`: while `isPlaying` and `amplitude` exceeds the
threshold, `min(((amplitude-threshold)/(1-threshold))^0.8 * sensitivity,
maxOpen)`; otherwise `0`. -/
def mouthTargetValue (cfg : MouthConfig) (isPlaying : Bool) (amplitude : ℝ) : ℝ :=
  if isPlaying ∧ cfg.threshold < amplitude then
    let normalized := (amplitude - cfg.threshold) / (1 - cfg.threshold)
    min (normalized ^ (0.8 : ℝ) * cfg.sensitivity) cfg.maxOpen
  else 0

/-- Embeds `SpeechMouthLayer.applyMouthValue`: clamps the value to `[0,1]` and
writes it to the expression channel (the `catch` fallback writes the same
clamped value to a raw morph target).  The returned option is the value
written, `none` when no VRM/expression manager is available. -/
def applyMouthValue (value : ℝ) (st : MouthLayerState) : Option ℝ :=
  if ¬ st.hasVrm ∨ ¬ st.hasExpressionManager then none else
  some (max 0 (min 1 value))

/-- Embeds `SpeechMouthLayer.update`: compute the target, track the decaying peak
envelope, smooth-damp with asymmetric attack/release smoothing, shape with
the two-segment ease and write via `applyMouthValue`.  Returns the new
layer state and the value written (if any). -/
def SpeechMouthLayer.update (delta : ℝ) (amplitude : ℝ) (isPlaying : Bool)
    (st : MouthLayerState) : MouthLayerState × Option ℝ :=
  if ¬ st.hasVrm ∨ st.enabled = false then (st, none) else
  let targetValue := mouthTargetValue st.config isPlaying amplitude
  let peakHit := isPlaying ∧ st.config.threshold < amplitude ∧ st.peakValue < targetValue
  let peakValue0 := if peakHit then targetValue else st.peakValue
  let peakDecay0 := if peakHit then 0 else st.peakDecay
  let peakDecay := peakDecay0 + delta * 3
  let peakValue := max targetValue (peakValue0 * Real.exp (-peakDecay))
  let smoothTime :=
    if st.currentValue < targetValue then st.config.smoothing * 0.5
    else if isPlaying = false then st.config.smoothing * 1.5
    else st.config.smoothing
  let r := smoothDamp st.currentValue targetValue st.velocity smoothTime delta none
  let currentValue := r.1
  let easedValue :=
    if currentValue < 0.5 then easeOutQuad (currentValue * 2) / 2
    else 0.5 + easeInQuad ((currentValue - 0.5) * 2) / 2
  let st' := { st with currentValue := currentValue, velocity := r.2,
                       peakValue := peakValue, peakDecay := peakDecay }
  (st', applyMouthValue easedValue st')

theorem foldl_fixed {α β : Type} (f : β → α → β) (l : List α) (b : β)
    (h : ∀ b a, f b a = b) : l.foldl f b = b := by
  induction l generalizing b with
  | nil => rfl
  | cons a as ih =>
    rw [List.foldl_cons, h b a]
    exact ih b

theorem foldl_preserves {α β γ : Type} (g : β → γ) (f : β → α → β) (l : List α) (b : β)
    (h : ∀ b a, g (f b a) = g b) : g (l.foldl f b) = g b := by
  induction l generalizing b with
  | nil => rfl
  | cons a as ih =>
    rw [List.foldl_cons, ih (f b a), h b a]

theorem foldl_preserves_mem {α β γ : Type} (g : β → γ) (f : β → α → β) (l : List α) (b : β)
    (h : ∀ b a, a ∈ l → g (f b a) = g b) : g (l.foldl f b) = g b := by
  induction l generalizing b with
  | nil => rfl
  | cons a as ih =>
    rw [List.foldl_cons, ih (f b a) (fun b' a' ha' => h b' a' (List.mem_cons_of_mem a ha')),
      h b a (List.mem_cons_self a as)]

theorem motionOffsetStep_fixed (s : CtrlState) (tr : PoseTransitionState)
    (ht : s.poseTransition = some tr) (bs : List (String × BoneState)) (p : String × Vec3) :
    motionOffsetStep s bs p = bs := by
  unfold motionOffsetStep
  cases lookupMap bs p.1 with
  | none => rfl
  | some st =>
    simp only [ht]

theorem applyMotionOffsets_boneStates_of_transition (offsets : PoseMap) (s : CtrlState)
    (tr : PoseTransitionState) (ht : s.poseTransition = some tr) :
    (applyMotionOffsets offsets s).boneStates = s.boneStates := by
  unfold applyMotionOffsets
  exact foldl_fixed _ offsets s.boneStates (motionOffsetStep_fixed s tr ht)

theorem updateBouncePosition_boneStates (time amplitude delta : ℝ) (s : CtrlState) :
    (updateBouncePosition time amplitude delta s).boneStates = s.boneStates := by
  unfold updateBouncePosition
  split <;> rfl

theorem updateFloatPosition_boneStates (time amplitude delta : ℝ) (s : CtrlState) :
    (updateFloatPosition time amplitude delta s).boneStates = s.boneStates := by
  unfold updateFloatPosition
  split <;> rfl

/-- Claim C2: in a tick, gesture playback makes `updateBodyMotion` return
with no work at all (the whole motion-offset computation is skipped), and
an in-flight pose transition means `updateBodyMotion` leaves every bone
target untouched (offsets are computed but applied to no bone), so
transition/gesture targets and `basePose + offset` targets are never
combined on a bone target in the same tick. -/
theorem motion_offsets_suppressed (delta : ℝ) (s : CtrlState) :
    (gestureIsPlaying s = true → updateBodyMotion delta s = s)
    ∧ (∀ tr, s.poseTransition = some tr →
        (updateBodyMotion delta s).boneStates = s.boneStates) := by
  constructor
  · intro hg
    unfold updateBodyMotion
    cases hm : s.currentMotion with
    | none => rfl
    | some m =>
      simp [hg]
  · intro tr ht
    unfold updateBodyMotion
    cases hm : s.currentMotion with
    | none => rfl
    | some m =>
      simp only
      split
      · rfl
      · split
        · rfl
        · split
          · rfl
          · cases m.motionType with
            | breathing => exact applyMotionOffsets_boneStates_of_transition _ s tr ht
            | sway => exact applyMotionOffsets_boneStates_of_transition _ s tr ht
            | bounce => exact updateBouncePosition_boneStates _ _ _ s
            | float => exact updateFloatPosition_boneStates _ _ _ s
            | walk => exact applyMotionOffsets_boneStates_of_transition _ s tr ht
            | custom => exact applyMotionOffsets_boneStates_of_transition _ s tr ht

/-- A controller state with the constructor-default fields of the
`PoseController` class (no VRM bound yet). -/
def blankCtrl : CtrlState :=
  { hasVrm := false
    rigHasBone := fun _ => false
    rigRot := fun _ => ⟨0, 0, 0⟩
    basePose := DEFAULT_RELAXED_POSE
    boneStates := []
    poseTransition := none
    currentMotion := none
    gestureAnimation := none
    motionTime := 0
    elapsedTime := 0
    basePosition := ⟨0, 0, 0⟩
    currentPositionY := 0
    positionVelocityY := 0
    scenePositionY := 0
    transitionDuration := 0.4
    smoothTime := 0.15 }

def wTr : PoseTransitionState := ⟨[], [], 0, 0.4, easeInOutCubic⟩

def wGest : CtrlState :=
  { blankCtrl with
    hasVrm := true
    gestureAnimation := some ⟨⟨600, false, []⟩, 0, true⟩
    currentMotion := some ⟨MotionType.breathing, 1, 1, none⟩ }

def wTrans : CtrlState :=
  { blankCtrl with
    hasVrm := true
    poseTransition := some wTr
    currentMotion := some ⟨MotionType.breathing, 1, 1, none⟩ }

theorem motion_offsets_suppressed_witness :
    gestureIsPlaying wGest = true ∧ updateBodyMotion 1 wGest = wGest
    ∧ wTrans.poseTransition = some wTr
    ∧ (updateBodyMotion 1 wTrans).boneStates = wTrans.boneStates :=
  ⟨rfl, (motion_offsets_suppressed 1 wGest).1 rfl, rfl,
   (motion_offsets_suppressed 1 wTrans).2 wTr rfl⟩

/-- Claim C5: when a playing gesture's progress reaches `>= 1` in a tick,
a looping gesture resets its start time to the current elapsed time (ms)
and interpolates that tick's keyframes at progress exactly `0`, while a
non-looping gesture is cleared with no keyframe applied that tick
(bone states untouched), after which the gesture no longer suppresses
base-pose / continuous motion. -/
theorem gesture_loop_boundary (s : CtrlState) (ga : GestureAnimationState)
    (hvrm : s.hasVrm = true) (hga : s.gestureAnimation = some ga)
    (hplay : ga.isPlaying = true)
    (hprog : 1 ≤ (s.elapsedTime * 1000 - ga.startTime) / ga.gesture.duration) :
    (ga.gesture.loop = true →
      updateGestureAnimation s =
        (applyGestureKeyframes ga.gesture 0 s.boneStates).map (fun bs =>
          { s with gestureAnimation := some { ga with startTime := s.elapsedTime * 1000 },
                   boneStates := bs }))
    ∧ (ga.gesture.loop = false →
        updateGestureAnimation s = some { s with gestureAnimation := none }
        ∧ gestureIsPlaying { s with gestureAnimation := none } = false) := by
  constructor
  · intro hloop
    simp only [updateGestureAnimation, hga, hvrm, hplay, hloop]
    rw [if_neg (by simp), if_neg (by simp), if_pos hprog]
    simp [hvrm]
  · intro hloop
    refine ⟨?_, rfl⟩
    simp only [updateGestureAnimation, hga, hvrm, hplay, hloop]
    rw [if_neg (by simp), if_neg (by simp), if_pos hprog]
    simp [hvrm]

def wGaDone : GestureAnimationState :=
  ⟨⟨600, false, [⟨0, [("head", ⟨0, 0, 0⟩)]⟩, ⟨1, [("head", ⟨15, 0, 0⟩)]⟩]⟩, 0, true⟩

def wGestDone : CtrlState :=
  { blankCtrl with
    hasVrm := true
    gestureAnimation := some wGaDone
    elapsedTime := 1 }

theorem gesture_loop_boundary_witness :
    wGestDone.hasVrm = true
    ∧ wGestDone.gestureAnimation = some wGaDone
    ∧ wGaDone.isPlaying = true
    ∧ 1 ≤ (wGestDone.elapsedTime * 1000 - wGaDone.startTime) / wGaDone.gesture.duration
    ∧ (updateGestureAnimation wGestDone = some { wGestDone with gestureAnimation := none }
        ∧ gestureIsPlaying { wGestDone with gestureAnimation := none } = false) :=
  ⟨rfl, rfl, rfl, by norm_num [wGestDone, wGaDone, blankCtrl],
   (gesture_loop_boundary wGestDone wGaDone rfl rfl rfl
     (by norm_num [wGestDone, wGaDone, blankCtrl])).2 rfl⟩

theorem applyMouthValue_bounds (value : ℝ) (st : MouthLayerState) (v : ℝ)
    (h : applyMouthValue value st = some v) : 0 ≤ v ∧ v ≤ 1 := by
  unfold applyMouthValue at h
  split at h
  · exact absurd h (by simp)
  · simp only [Option.some.injEq] at h
    subst h
    exact ⟨le_max_left _ _, max_le (by norm_num) (min_le_left _ _)⟩

theorem SpeechMouthLayer.update_snd_shape (delta amplitude : ℝ) (isPlaying : Bool)
    (st : MouthLayerState) :
    (SpeechMouthLayer.update delta amplitude isPlaying st).2 = none
    ∨ ∃ w st1, (SpeechMouthLayer.update delta amplitude isPlaying st).2 = applyMouthValue w st1 := by
  unfold SpeechMouthLayer.update
  split
  · exact Or.inl rfl
  · exact Or.inr ⟨_, _, rfl⟩

/-- Claim C8: the mouth layer's per-tick target is
`min(((amplitude-threshold)/(1-threshold))^0.8 * sensitivity, maxOpen)`
exactly when `isPlaying` and `amplitude > threshold` and `0` otherwise,
and any value the tick writes to the facial expression channel is clamped
to `[0,1]`, so it never exceeds `1`. -/
theorem mouth_target_and_clamp (st : MouthLayerState) (delta amplitude : ℝ)
    (isPlaying : Bool) :
    (isPlaying = true → st.config.threshold < amplitude →
      mouthTargetValue st.config isPlaying amplitude =
        min (((amplitude - st.config.threshold) / (1 - st.config.threshold)) ^ (0.8 : ℝ)
          * st.config.sensitivity) st.config.maxOpen)
    ∧ ((isPlaying = false ∨ amplitude ≤ st.config.threshold) →
        mouthTargetValue st.config isPlaying amplitude = 0)
    ∧ (∀ v, (SpeechMouthLayer.update delta amplitude isPlaying st).2 = some v →
        0 ≤ v ∧ v ≤ 1) := by
  refine ⟨?_, ?_, ?_⟩
  · intro hp ha
    simp [mouthTargetValue, hp, ha]
  · intro h
    unfold mouthTargetValue
    rw [if_neg]
    rintro ⟨hp, ha⟩
    rcases h with h | h
    · rw [h] at hp
      exact Bool.false_ne_true hp
    · linarith
  · intro v hv
    rcases SpeechMouthLayer.update_snd_shape delta amplitude isPlaying st with h | ⟨w, st1, h⟩
    · rw [h] at hv
      exact absurd hv (by simp)
    · rw [h] at hv
      exact applyMouthValue_bounds w st1 v hv

def wMouthCfg : MouthConfig := ⟨0.15, 0.02, 1.0, 2.0⟩

def wMouthSt : MouthLayerState := ⟨true, true, true, 0, 0, 0, 0, wMouthCfg⟩

theorem mouth_target_and_clamp_witness :
    wMouthSt.config.threshold < (0.5 : ℝ)
    ∧ mouthTargetValue wMouthSt.config true 0.5 =
        min ((((0.5 : ℝ) - wMouthSt.config.threshold) / (1 - wMouthSt.config.threshold)) ^ (0.8 : ℝ)
          * wMouthSt.config.sensitivity) wMouthSt.config.maxOpen :=
  ⟨by norm_num [wMouthSt, wMouthCfg],
   (mouth_target_and_clamp wMouthSt 1 0.5 true).1 rfl (by norm_num [wMouthSt, wMouthCfg])⟩

theorem lookupMap_map_keyfn {α β : Type} (l : List (String × α)) (f : String × α → β)
    (k : String) :
    lookupMap (l.map (fun p => (p.1, f p))) k =
      (l.find? (fun p => p.1 == k)).map (fun p => f p) := by
  induction l with
  | nil => rfl
  | cons a as ih =>
    by_cases h : a.1 = k
    · rw [List.map_cons, lookupMap_cons, if_pos h, List.find?_cons_of_pos _ (by simpa using h)]
      rfl
    · rw [List.map_cons, lookupMap_cons, if_neg h, List.find?_cons_of_neg _ (by simpa using h)]
      exact ih

theorem find?_key_of_mem_keys {α : Type} (l : List (String × α)) (b : String)
    (hb : b ∈ l.map Prod.fst) :
    ∃ p, l.find? (fun q => q.1 == b) = some p ∧ p.1 = b := by
  induction l with
  | nil => simp at hb
  | cons a as ih =>
    by_cases h : a.1 = b
    · exact ⟨a, List.find?_cons_of_pos _ (by simpa using h), h⟩
    · rw [List.map_cons] at hb
      rcases List.mem_cons.mp hb with hb | hb
      · exact absurd hb.symm h
      · obtain ⟨p, hp, hk⟩ := ih hb
        exact ⟨p, by rw [List.find?_cons_of_neg _ (by simpa using h)]; exact hp, hk⟩

/-- Claim C3: issuing `applyPose` (also mid-transition) builds the new
transition with `toPose = merge(basePose, preset.bones)` (also installed as
the new base pose), and with `fromPose` holding, for every touched bone
that has a bone state, that bone's *current* (already smooth-damped)
rotation converted to degrees — never a stale pre-transition pose. -/
theorem applyPose_midflight (s : CtrlState) (pose : PosePreset) (hvrm : s.hasVrm = true) :
    ∀ tr, (applyPose pose s).poseTransition = some tr →
      tr.toPose = mergePose s.basePose pose.bones
      ∧ (applyPose pose s).basePose = mergePose s.basePose pose.bones
      ∧ ∀ b st, b ∈ (mergePose s.basePose pose.bones).map Prod.fst →
          lookupMap s.boneStates b = some st →
          lookupMap tr.fromPose b =
            some ⟨st.current.x / (Real.pi / 180), st.current.y / (Real.pi / 180),
                  st.current.z / (Real.pi / 180)⟩ := by
  intro tr htr
  unfold applyPose at htr
  rw [if_neg (by simp [hvrm])] at htr
  simp only [Option.some.injEq] at htr
  subst htr
  refine ⟨rfl, ?_, ?_⟩
  · unfold applyPose
    rw [if_neg (by simp [hvrm])]
  · intro b st hb hst
    show lookupMap ((mergePose s.basePose pose.bones).map _) b = _
    rw [lookupMap_map_keyfn]
    obtain ⟨p, hp, hpk⟩ := find?_key_of_mem_keys (mergePose s.basePose pose.bones) b hb
    rw [hp]
    simp only [Option.map_some']
    rw [hpk, hst]

def wApBS : BoneState := ⟨⟨1, 2, 3⟩, ⟨1, 2, 3⟩, ⟨0, 0, 0⟩⟩

def wApSt : CtrlState :=
  { blankCtrl with
    hasVrm := true
    boneStates := [("head", wApBS)] }

def wApPose : PosePreset := ⟨[]⟩

def wApTr : PoseTransitionState :=
  ((applyPose wApPose wApSt).poseTransition).getD ⟨[], [], 0, 0, id⟩

theorem applyPose_midflight_witness :
    wApSt.hasVrm = true
    ∧ (applyPose wApPose wApSt).poseTransition = some wApTr
    ∧ "head" ∈ (mergePose wApSt.basePose wApPose.bones).map Prod.fst
    ∧ lookupMap wApSt.boneStates "head" = some wApBS
    ∧ lookupMap wApTr.fromPose "head" =
        some ⟨wApBS.current.x / (Real.pi / 180), wApBS.current.y / (Real.pi / 180),
              wApBS.current.z / (Real.pi / 180)⟩ :=
  ⟨rfl, rfl, by decide, rfl,
   (applyPose_midflight wApSt wApPose rfl wApTr rfl).2.2 "head" wApBS (by decide) rfl⟩

/-- The controller fields not touched by bone-state / rig writes (used to
track state through `init`). -/
def ctrlMeta (s : CtrlState) :
    Bool × Option PoseTransitionState × Option GestureAnimationState × ℝ × ℝ ×
      Option BodyMotion :=
  (s.hasVrm, s.poseTransition, s.gestureAnimation, s.elapsedTime, s.motionTime, s.currentMotion)

theorem poseImmediateStep_meta (s : CtrlState) (p : String × Vec3) :
    ctrlMeta (poseImmediateStep s p) = ctrlMeta s := by
  unfold poseImmediateStep
  cases lookupMap BONE_MAP p.1 with
  | none => rfl
  | some v =>
    simp only
    split
    · rfl
    · cases lookupMap _ p.1 <;> rfl

theorem applyPoseImmediate_meta (pose : PoseMap) (s : CtrlState) :
    ctrlMeta (applyPoseImmediate pose s) = ctrlMeta s := by
  unfold applyPoseImmediate
  split
  · rfl
  · exact foldl_preserves ctrlMeta poseImmediateStep pose s poseImmediateStep_meta

theorem initializeBoneStates_meta (s : CtrlState) :
    ctrlMeta (initializeBoneStates s) = ctrlMeta s := by
  unfold initializeBoneStates
  split <;> rfl

theorem init_meta (s : CtrlState) :
    ctrlMeta (init s) = (true, none, s.gestureAnimation, 0, 0, s.currentMotion) := by
  unfold init
  rw [applyPoseImmediate_meta, initializeBoneStates_meta]
  rfl

theorem updatePoseTransition_of_none (s : CtrlState) (h : s.poseTransition = none) :
    updatePoseTransition s = s := by
  unfold updatePoseTransition
  rw [h]

theorem updateGestureAnimation_empty_throws (s : CtrlState) (ga : GestureAnimationState)
    (hvrm : s.hasVrm = true) (hga : s.gestureAnimation = some ga)
    (hplay : ga.isPlaying = true) (hkf : ga.gesture.keyframes = [])
    (hprog : ¬ (1:ℝ) ≤ (s.elapsedTime * 1000 - ga.startTime) / ga.gesture.duration) :
    updateGestureAnimation s = none := by
  simp only [updateGestureAnimation, hga, hvrm, hplay]
  rw [if_neg (by simp), if_neg (by simp), if_neg hprog]
  unfold applyGestureKeyframes
  rw [hkf]
  rfl

/-- A `BodyGesture` with an empty keyframe list (the "zero-length keyframe
list" configuration of the spec's error-handling section). -/
def wC1Gesture : BodyGesture := ⟨1200, false, []⟩

def wC1Rig : CtrlState := { blankCtrl with rigHasBone := fun _ => true }

/-- An initialized controller on which `playBodyGesture` was called with
the empty-keyframe gesture. -/
def wC1State : CtrlState := playBodyGesture wC1Gesture (init wC1Rig)

def wC1Tick : CtrlState :=
  { wC1State with motionTime := wC1State.motionTime + 0.016,
                  elapsedTime := wC1State.elapsedTime + 0.016 }

/-- Claim C1 (failing input): on an initialized controller, after
`playBodyGesture` with a zero-length keyframe list, `update(0.016)` (the
gesture's progress still below 1) does *not* behave as a no-op — the
source reads `keyframes[0].time` with `keyframes[0] === undefined`, so a
`TypeError` escapes `update()` (modelled as `none`). -/
theorem update_throws_on_empty_keyframes : update 0.016 wC1State = none := by
  have hmeta := init_meta wC1Rig
  have hv : wC1State.hasVrm = true := congrArg Prod.fst hmeta
  have hpt : wC1State.poseTransition = none := congrArg (fun t => t.2.1) hmeta
  have hel : wC1State.elapsedTime = 0 := congrArg (fun t => t.2.2.2.1) hmeta
  have hel0 : (init wC1Rig).elapsedTime = 0 := congrArg (fun t => t.2.2.2.1) hmeta
  have hv' : wC1Tick.hasVrm = true := hv
  have hpt' : wC1Tick.poseTransition = none := hpt
  have hprog : ¬ (1:ℝ) ≤
      (wC1Tick.elapsedTime * 1000 - (init wC1Rig).elapsedTime * 1000) / (1200 : ℝ) := by
    show ¬ (1:ℝ) ≤
      ((wC1State.elapsedTime + 0.016) * 1000 - (init wC1Rig).elapsedTime * 1000) / (1200 : ℝ)
    rw [hel, hel0]
    norm_num
  unfold update
  rw [if_neg (by simp [hv])]
  show (updateGestureAnimation (updatePoseTransition wC1Tick)).map
    (fun s3 => applyBoneRotations 0.016 (updateBodyMotion 0.016 s3)) = none
  rw [updatePoseTransition_of_none wC1Tick hpt']
  rw [updateGestureAnimation_empty_throws wC1Tick
    ⟨wC1Gesture, (init wC1Rig).elapsedTime * 1000, true⟩ hv' rfl rfl rfl hprog]
  rfl

theorem lookupMap_mem_values {α : Type} (m : List (String × α)) (k : String) (v : α)
    (h : lookupMap m k = some v) : v ∈ m.map Prod.snd := by
  unfold lookupMap at h
  cases hf : m.find? (fun p => p.1 == k) with
  | none => rw [hf] at h; simp at h
  | some p =>
    rw [hf] at h
    simp only [Option.map_some', Option.some.injEq] at h
    subst h
    exact List.mem_map_of_mem Prod.snd (List.mem_of_find?_eq_some hf)

theorem updatePoseTransition_rigRot (s : CtrlState) :
    (updatePoseTransition s).rigRot = s.rigRot := by
  unfold updatePoseTransition
  split
  · rfl
  · split
    · rfl
    · dsimp only
      split <;> rfl

theorem applyMotionOffsets_rigRot (offsets : PoseMap) (s : CtrlState) :
    (applyMotionOffsets offsets s).rigRot = s.rigRot := rfl

theorem updateBouncePosition_rigRot (time amplitude delta : ℝ) (s : CtrlState) :
    (updateBouncePosition time amplitude delta s).rigRot = s.rigRot := by
  unfold updateBouncePosition
  split <;> rfl

theorem updateFloatPosition_rigRot (time amplitude delta : ℝ) (s : CtrlState) :
    (updateFloatPosition time amplitude delta s).rigRot = s.rigRot := by
  unfold updateFloatPosition
  split <;> rfl

theorem updateBodyMotion_rigRot (delta : ℝ) (s : CtrlState) :
    (updateBodyMotion delta s).rigRot = s.rigRot := by
  unfold updateBodyMotion
  cases hm : s.currentMotion with
  | none => rfl
  | some m =>
    simp only
    split
    · rfl
    · split
      · rfl
      · split
        · rfl
        · cases m.motionType with
          | breathing => exact applyMotionOffsets_rigRot _ s
          | sway => exact applyMotionOffsets_rigRot _ s
          | bounce => exact updateBouncePosition_rigRot _ _ _ s
          | float => exact updateFloatPosition_rigRot _ _ _ s
          | walk => exact applyMotionOffsets_rigRot _ s
          | custom => exact applyMotionOffsets_rigRot _ s

theorem updateGestureAnimation_rigRot (s s' : CtrlState)
    (h : updateGestureAnimation s = some s') : s'.rigRot = s.rigRot := by
  unfold updateGestureAnimation at h
  split at h
  · simp only [Option.some.injEq] at h; subst h; rfl
  · split at h
    · simp only [Option.some.injEq] at h; subst h; rfl
    · split at h
      · simp only [Option.some.injEq] at h; subst h; rfl
      · dsimp only at h
        split at h
        · split at h
          · rcases Option.map_eq_some'.mp h with ⟨bs, _, heq⟩
            subst heq; rfl
          · simp only [Option.some.injEq] at h; subst h; rfl
        · rcases Option.map_eq_some'.mp h with ⟨bs, _, heq⟩
          subst heq; rfl

theorem boneRotationStep_rigRot (delta : ℝ) (s : CtrlState) (p : String × BoneState)
    (f : String) (hf : f ∉ BONE_MAP.map Prod.snd) :
    (boneRotationStep delta s p).rigRot f = s.rigRot f := by
  unfold boneRotationStep
  cases hlk : lookupMap BONE_MAP p.1 with
  | none => rfl
  | some vrm =>
    have hne : ¬ f = vrm := fun he => hf (he ▸ lookupMap_mem_values _ _ _ hlk)
    simp only
    split
    · rfl
    · simp only [if_neg hne]

theorem applyBoneRotations_rigRot (delta : ℝ) (s : CtrlState) (f : String)
    (hf : f ∉ BONE_MAP.map Prod.snd) :
    (applyBoneRotations delta s).rigRot f = s.rigRot f := by
  unfold applyBoneRotations
  split
  · rfl
  · exact foldl_preserves (fun s => s.rigRot f) (boneRotationStep delta) s.boneStates s
      (fun b a => boneRotationStep_rigRot delta b a f hf)

theorem update_rigRot (delta : ℝ) (s s' : CtrlState) (f : String)
    (hf : f ∉ BONE_MAP.map Prod.snd) (h : update delta s = some s') :
    s'.rigRot f = s.rigRot f := by
  unfold update at h
  split at h
  · simp only [Option.some.injEq] at h; subst h; rfl
  · rcases Option.map_eq_some'.mp h with ⟨s3, hs3, heq⟩
    subst heq
    rw [applyBoneRotations_rigRot _ _ f hf]
    rw [show (updateBodyMotion delta s3).rigRot = s3.rigRot from updateBodyMotion_rigRot delta s3]
    rw [updateGestureAnimation_rigRot _ _ hs3]
    rw [updatePoseTransition_rigRot]

theorem fingerJointStep_yz (side : HandSide) (curl : ℝ) (isThumb : Bool) (s : CtrlState)
    (q : ℕ × (String × ℝ)) (n : String) (hn : isThumb = true → ¬ n = q.2.1) :
    ((fingerJointStep side curl isThumb s q).rigRot n).y = (s.rigRot n).y
    ∧ ((fingerJointStep side curl isThumb s q).rigRot n).z = (s.rigRot n).z := by
  unfold fingerJointStep
  dsimp only
  split
  · exact ⟨rfl, rfl⟩
  · cases isThumb with
    | true =>
      have hne : ¬ n = q.2.1 := hn rfl
      rw [if_pos rfl]
      split
      · constructor <;> simp only [if_neg hne]
      · constructor <;> simp only [if_neg hne]
    | false =>
      rw [if_neg Bool.false_ne_true]
      by_cases he : n = q.2.1
      · subst he
        constructor <;> simp
      · constructor <;> simp only [if_neg he]

theorem applyFingerCurl_yz (side : HandSide) (curl : ℝ) (bones : List String)
    (isThumb : Bool) (s : CtrlState) (n : String)
    (hn : isThumb = true → ∀ b ∈ bones, ¬ n = b) :
    ((applyFingerCurl side curl bones isThumb s).rigRot n).y = (s.rigRot n).y
    ∧ ((applyFingerCurl side curl bones isThumb s).rigRot n).z = (s.rigRot n).z := by
  unfold applyFingerCurl
  have h := foldl_preserves_mem (fun s : CtrlState => ((s.rigRot n).y, (s.rigRot n).z))
    (fingerJointStep side curl isThumb)
    ((bones.zip (if isThumb then [0.3, 0.4, 0.3] else [0.5, 0.35, 0.15])).enum) s
    (fun b q hq => by
      have hmem : q.2.1 ∈ bones := by
        have h2 : q.2 ∈ bones.zip (if isThumb then [0.3, 0.4, 0.3] else [0.5, 0.35, 0.15]) := by
          exact List.getElem?_mem (List.mem_enum_iff_getElem?.mp hq)
        exact (List.of_mem_zip h2).1
      have step := fingerJointStep_yz side curl isThumb b q n
        (fun hT => hn hT q.2.1 hmem)
      exact Prod.ext step.1 step.2)
  exact ⟨congrArg Prod.fst h, congrArg Prod.snd h⟩

theorem fingerBonesTable_thumb (pfx : String) (k : String) (fb : List String × Bool)
    (h : lookupMap (fingerBonesTable pfx) k = some fb) (ht : fb.2 = true) :
    fb.1 = [pfx ++ "ThumbMetacarpal", pfx ++ "ThumbProximal", pfx ++ "ThumbDistal"] := by
  have hmem := lookupMap_mem_values _ _ _ h
  simp only [fingerBonesTable, List.map_cons, List.map_nil, List.mem_cons,
    List.not_mem_nil, or_false] at hmem
  rcases hmem with h1 | h2 | h3 | h4 | h5
  · rw [h1]
  · rw [h2] at ht; simp at ht
  · rw [h3] at ht; simp at ht
  · rw [h4] at ht; simp at ht
  · rw [h5] at ht; simp at ht

theorem applyFingerPose_yz (side : HandSide) (fingers : HandFingers) (s : CtrlState)
    (n : String) (hn : n ∉ thumbJointNames side) :
    ((applyFingerPose side fingers s).rigRot n).y = (s.rigRot n).y
    ∧ ((applyFingerPose side fingers s).rigRot n).z = (s.rigRot n).z := by
  have hstep : ∀ (b : CtrlState) (e : String × Option ℝ),
      ((fingerEntryStep side (sideName side) b e).rigRot n).y = (b.rigRot n).y
      ∧ ((fingerEntryStep side (sideName side) b e).rigRot n).z = (b.rigRot n).z := by
    intro b e
    unfold fingerEntryStep
    cases h2 : e.2 with
    | none => exact ⟨rfl, rfl⟩
    | some curl =>
      cases hlk : lookupMap (fingerBonesTable (sideName side)) e.1 with
      | none => exact ⟨rfl, rfl⟩
      | some fb =>
        apply applyFingerCurl_yz
        intro hT b' hb' he'
        apply hn
        rw [he']
        have hfb : fb.1 = thumbJointNames side := by
          rw [fingerBonesTable_thumb (sideName side) e.1 fb hlk hT]
          rfl
        rw [← hfb]
        exact hb'
  unfold applyFingerPose
  split
  · exact ⟨rfl, rfl⟩
  · dsimp only
    have h := foldl_preserves (fun s : CtrlState => ((s.rigRot n).y, (s.rigRot n).z))
      (fingerEntryStep side (sideName side))
      [("thumb", fingers.thumb), ("index", fingers.index), ("middle", fingers.middle),
       ("ring", fingers.ring), ("pinky", fingers.pinky)] s
      (fun b e => Prod.ext (hstep b e).1 (hstep b e).2)
    exact ⟨congrArg Prod.fst h, congrArg Prod.snd h⟩

/-- Claim C10: the bone-state registry `BONE_MAP` contains no finger
joint, so once `applyHandGesture`/`applyFingerPose` has written a finger
joint's rotation, no `update(delta)` call ever rewrites it (finger joints
bypass the smooth-damp pipeline entirely); and for every joint that is not
a thumb joint of the gestured hand, `applyFingerPose` writes only the x
rotation, leaving y and z exactly as they were. -/
theorem finger_rotations_persist :
    (∀ f ∈ fingerVrmBoneNames, f ∉ BONE_MAP.map Prod.snd)
    ∧ (∀ (delta : ℝ) (s s' : CtrlState) (f : String), f ∈ fingerVrmBoneNames →
        update delta s = some s' → s'.rigRot f = s.rigRot f)
    ∧ (∀ (side : HandSide) (fingers : HandFingers) (s : CtrlState) (n : String),
        n ∉ thumbJointNames side →
        ((applyFingerPose side fingers s).rigRot n).y = (s.rigRot n).y
        ∧ ((applyFingerPose side fingers s).rigRot n).z = (s.rigRot n).z) := by
  have h1 : ∀ f ∈ fingerVrmBoneNames, f ∉ BONE_MAP.map Prod.snd := by decide
  refine ⟨h1, ?_, ?_⟩
  · intro delta s s' f hf h
    exact update_rigRot delta s s' f (h1 f hf) h
  · intro side fingers s n hn
    exact applyFingerPose_yz side fingers s n hn

theorem finger_rotations_persist_witness :
    ("leftIndexProximal" ∈ fingerVrmBoneNames
      ∧ "leftIndexProximal" ∉ BONE_MAP.map Prod.snd)
    ∧ (update 1 blankCtrl = some blankCtrl
      ∧ blankCtrl.rigRot "leftIndexProximal" = blankCtrl.rigRot "leftIndexProximal")
    ∧ ("spine" ∉ thumbJointNames HandSide.left
      ∧ ((applyFingerPose HandSide.left ⟨some 1, some 1, some 1, some 1, some 1⟩
            blankCtrl).rigRot "spine").y = (blankCtrl.rigRot "spine").y) :=
  ⟨⟨by decide, finger_rotations_persist.1 "leftIndexProximal" (by decide)⟩,
   ⟨rfl, finger_rotations_persist.2.1 1 blankCtrl blankCtrl "leftIndexProximal"
      (by decide) rfl⟩,
   ⟨by decide, (finger_rotations_persist.2.2 HandSide.left
      ⟨some 1, some 1, some 1, some 1, some 1⟩ blankCtrl "spine" (by decide)).1⟩⟩

theorem walking_knee_bend_nonneg_witness :
    (0:ℝ) ≤ 1 ∧ (1:ℝ) ≤ 1
    ∧ 0 ≤ jsOrNum (MotionParams.mk none none none).strideLength 25
    ∧ 0 ≤ (getRotD (calculateWalkingOffsets 0 (MotionParams.mk none none none) 1 [])
        "leftLowerLeg").x :=
  ⟨by norm_num, by norm_num, by norm_num [jsOrNum],
   (walking_knee_bend_nonneg 0 (MotionParams.mk none none none) 1 (by norm_num)
     (by norm_num) (by norm_num [jsOrNum])).1⟩
